import Mathlib

/-!
Shallow embedding of the streaming inference pipeline of
`sensevoice_streaming_api` and proofs about its specified behaviour.

The embedding covers:

* the segment / batch / audio data model
  (`app/models/segment_task.py`, `app/models/batch_result.py`);
* the dual-priority queue scheduler
  (`app/streaming/dual_queue_scheduler.py`: `add_segment_task`,
  `_create_batch`);
* the batch inference engine
  (`app/inference/batch_inference_engine.py`: `process_batch`,
  `_batch_transcribe`, `_process_inference_results`);
* the result dispatcher
  (`app/streaming/result_dispatcher.py`: `dispatch_batch_results`,
  `cleanup_old_results`);
* the task store roll-up
  (`app/preprocessing/task_manager.py`: `update_segment_result`,
  `_check_audio_task_completion`).

Timestamps and other real-valued quantities are modelled as rationals;
Python dictionaries are modelled as insertion-ordered association lists;
the opaque model adapter, file-system probing and the wall clock are
passed in as explicit parameters.  A model call that raises is modelled
as the adapter function returning `none`.
-/

namespace SenseVoice

/-- Status of one audio slice, from `app/models/segment_task.py`
(`SegmentStatus`). -/
inductive SegmentStatus where
  | created
  | queued
  | processing
  | completed
  | failed
deriving DecidableEq, Repr

/-- Status of one batch, from `app/models/batch_result.py`
(`BatchStatus`). -/
inductive BatchStatus where
  | created
  | processing
  | completed
  | failed
deriving DecidableEq, Repr

/-- Modelled from the spec: the `TaskStatus` enum imported by
`app/preprocessing/task_manager.py` is not under `src/`
(`app/models/audio_task.py` only defines the divergent
`AudioTaskStatus`).  The spec lists audio statuses
UPLOADED, SLICING, READY, PROCESSING, COMPLETED, FAILED. -/
inductive TaskStatus where
  | uploaded
  | slicing
  | ready
  | processing
  | completed
  | failed
deriving DecidableEq, Repr

/-- One audio slice task, from `app/models/segment_task.py`
(`SegmentTask`).  The streaming stage accesses the identifier, parent
and index fields as `segment_id`, `parent_id` and `index`; the
dataclass under `src/` names them `task_id`, `parent_audio_id` and
`segment_index`, which is what we use.  `queued_at` and `batch_id` are
attributes attached dynamically at admission / batch formation and are
therefore `Option`-valued; the wall-clock bookkeeping fields
`created_at` / `updated_at` and the audio-quality fields are omitted
(no claim reads them). -/
structure SegmentTask where
  task_id : String
  parent_audio_id : String
  segment_index : Nat
  start_time : ℚ
  end_time : ℚ
  duration : ℚ
  file_path : String
  status : SegmentStatus := SegmentStatus.created
  priority : Int := 1
  queued_at : Option ℚ := none
  batch_id : Option String := none
  transcription_text : Option String := none
  confidence : Option ℚ := none
  processing_time : Option ℚ := none
  error_message : Option String := none
deriving DecidableEq, Repr

/-- Source `SegmentTask.is_first_segment` property:
`self.segment_index == 0`. -/
def SegmentTask.is_first_segment (t : SegmentTask) : Bool :=
  t.segment_index == 0

/-- Modelled from the spec: the streaming-stage `SegmentTask.set_result`
called by `app/preprocessing/task_manager.py` is not under `src/`; per
the spec (and its analogue `set_transcription_result` in
`app/models/segment_task.py`) it records text, confidence and
processing time and moves the segment to COMPLETED. -/
def SegmentTask.set_result (t : SegmentTask) (text : String)
    (conf proc_time : ℚ) : SegmentTask :=
  { t with
    transcription_text := some text
    confidence := some conf
    processing_time := some proc_time
    status := SegmentStatus.completed }

/-- Configuration slice read by the scheduler, from
`app/config/settings.py` (`StreamingSettings`).  The two priority
values are carried in the state although the scheduler never reads
them. -/
structure StreamingSettings where
  batch_size : Nat := 128
  batch_timeout_ms : Nat := 200
  first_segment_priority : Int := 10
  normal_segment_priority : Int := 1
  max_queue_size : Nat := 1000
  queue_check_interval_ms : Nat := 50
  max_concurrent_batches : Nat := 2
deriving DecidableEq, Repr

/-- State of `DualQueueScheduler`
(`app/streaming/dual_queue_scheduler.py`): the two FIFO deques and the
batch counters.  Statistics deques and asyncio primitives are
omitted. -/
structure SchedulerState where
  settings : StreamingSettings
  first_segment_queue : List SegmentTask := []
  normal_segment_queue : List SegmentTask := []
  batch_counter : Nat := 0
  total_batches_created : Nat := 0
  total_batches_completed : Nat := 0
deriving DecidableEq, Repr

/-- Source `DualQueueScheduler._get_total_queue_size`. -/
def total_queue_size (st : SchedulerState) : Nat :=
  st.first_segment_queue.length + st.normal_segment_queue.length

/-- Source `DualQueueScheduler.add_segment_task`: reject when the combined
size has reached `max_queue_size`, otherwise append to the first- or
normal-segment queue according to `is_first_segment`, set the status
to QUEUED and stamp `queued_at`.  In the source the task object is
appended and then mutated; by aliasing the queued entry carries the
update, which the functional embedding renders by appending the
updated copy. -/
def add_segment_task (st : SchedulerState) (t : SegmentTask) (now : ℚ) :
    Bool × SchedulerState :=
  if st.settings.max_queue_size ≤ total_queue_size st then
    (false, st)
  else
    let tq := { t with status := SegmentStatus.queued, queued_at := some now }
    if t.is_first_segment then
      (true, { st with first_segment_queue := st.first_segment_queue ++ [tq] })
    else
      (true, { st with normal_segment_queue := st.normal_segment_queue ++ [tq] })

/-- One priority-class drain loop of `DualQueueScheduler._create_batch`:
starting from the already collected `batch`, keep popping the head of
`q` while the batch holds fewer than `cap` items.  Returns the grown
batch, the remaining queue and the number of items popped (the
source's `first_segment_count` / `normal_segment_count` counters). -/
def drain_loop (cap : Nat) :
    List SegmentTask → List SegmentTask →
    List SegmentTask × List SegmentTask × Nat
  | batch, [] => (batch, [], 0)
  | batch, t :: rest =>
    if batch.length < cap then
      let r := drain_loop cap (batch ++ [t]) rest
      (r.1, r.2.1, r.2.2 + 1)
    else
      (batch, t :: rest, 0)

/-- Source `DualQueueScheduler._create_batch`: drain the first-segment queue
first, then fill the remainder from the normal-segment queue, mark
every collected task PROCESSING with the fresh batch id, and bump the
batch counter.  Returns
`(batch_tasks, batch_id, first_segment_count, normal_segment_count, state)`;
the two counts are the source's loop counters.  `now_ms` stands for
`int(time.time()*1000)` in the batch-id format string. -/
def create_batch (st : SchedulerState) (now_ms : Nat) :
    List SegmentTask × String × Nat × Nat × SchedulerState :=
  let batch_id := "batch_" ++ toString now_ms ++ "_" ++ toString st.batch_counter
  let r1 := drain_loop st.settings.batch_size [] st.first_segment_queue
  let r2 := drain_loop st.settings.batch_size r1.1 st.normal_segment_queue
  let batch_tasks := r2.1.map fun t =>
    { t with status := SegmentStatus.processing, batch_id := some batch_id }
  (batch_tasks, batch_id, r1.2.2, r2.2.2,
    { st with
      first_segment_queue := r1.2.1
      normal_segment_queue := r2.2.1
      batch_counter := st.batch_counter + 1 })

/-- Concrete segment fixture used by the evaluation theorems, shaped
like the slicer's output: first segments carry priority 10, others
priority 1. -/
def segment_ex (id aid : String) (i : Nat) : SegmentTask :=
  { task_id := id
    parent_audio_id := aid
    segment_index := i
    start_time := 0
    end_time := 1
    duration := 1
    file_path := id ++ ".wav"
    priority := if i = 0 then 10 else 1 }

/-- Small configuration fixture (batch as in the spec's end-to-end
scenarios). -/
def settings_ex : StreamingSettings :=
  { batch_size := 2, max_queue_size := 8 }

/-- Scheduler fixture: one queued first segment, two queued normal
segments. -/
def sched_ex : SchedulerState :=
  { settings := settings_ex
    first_segment_queue := [segment_ex "f0" "a" 0]
    normal_segment_queue := [segment_ex "n1" "a" 1, segment_ex "n2" "a" 2] }

/-- Scheduler fixture exactly at capacity (`max_queue_size = 3`, three
queued segments). -/
def sched_full_ex : SchedulerState :=
  { settings := { batch_size := 2, max_queue_size := 3 }
    normal_segment_queue :=
      [segment_ex "n1" "a" 1, segment_ex "n2" "a" 2, segment_ex "n3" "a" 3] }

/-- One observable queue operation of a run: a completed admission
(`add_segment_task`) or a batch-formation drain (`_create_batch`). -/
inductive QueueOp where
  | push (t : SegmentTask) (now : ℚ)
  | drain (now_ms : Nat)

/-- Run a sequence of queue operations from a scheduler state. -/
def run_ops (st : SchedulerState) : List QueueOp → SchedulerState
  | [] => st
  | QueueOp.push t now :: rest => run_ops (add_segment_task st t now).2 rest
  | QueueOp.drain n :: rest => run_ops (create_batch st n).2.2.2.2 rest

/-- Erase the (never-read) priority field of a segment. -/
def SegmentTask.erase_priority (t : SegmentTask) : SegmentTask :=
  { t with priority := 0 }

/-- Erase everything priority-valued from a scheduler state: the two
configured priority options and the priority field of every queued
segment. -/
def erase_priorities (st : SchedulerState) : SchedulerState :=
  { st with
    settings := { st.settings with
      first_segment_priority := 0, normal_segment_priority := 0 }
    first_segment_queue :=
      st.first_segment_queue.map SegmentTask.erase_priority
    normal_segment_queue :=
      st.normal_segment_queue.map SegmentTask.erase_priority }

/-- One item of the model adapter's output dictionary
(`app/inference/sensevoice_service.py` `transcribe` /
`batch_transcribe`): keys success / text / confidence / error /
processing_time, read back through `.get` with defaults by the
engine.  Absent keys are `none`. -/
structure TranscribeResult where
  success : Bool := false
  text : Option String := none
  confidence : Option ℚ := none
  error : Option String := none
  processing_time : Option ℚ := none
deriving DecidableEq, Repr

/-- Source `app/models/batch_result.py` `SegmentResult`.  The dataclass has no
creation timestamp; `created_at` models the dynamically attached
attribute that `cleanup_old_results` probes with `hasattr` — no
constructor in the source ever sets it, so pipeline-produced values
carry `none`.  The audio-quality fields are omitted. -/
structure SegmentResult where
  segment_id : String
  parent_audio_id : String
  segment_index : Nat
  text : String
  confidence : ℚ
  processing_time : ℚ
  start_time : ℚ
  end_time : ℚ
  duration : ℚ
  is_first_segment : Bool
  priority : Int
  file_path : String
  created_at : Option ℚ := none
deriving DecidableEq, Repr

/-- Source `app/models/batch_result.py` `BatchResult` (performance fields not
read by any claim are omitted). -/
structure BatchResult where
  batch_id : String
  status : BatchStatus
  batch_size : Nat
  first_segments_count : Nat
  normal_segments_count : Nat
  segment_results : List SegmentResult := []
  failed_segments : List String := []
  gpu_inference_time : ℚ := 0
  error_message : Option String := none
deriving DecidableEq, Repr

/-- Source `BatchResult.get_first_segments`. -/
def BatchResult.get_first_segments (b : BatchResult) : List SegmentResult :=
  b.segment_results.filter fun r => r.is_first_segment

/-- Source `BatchResult.get_normal_segments`. -/
def BatchResult.get_normal_segments (b : BatchResult) : List SegmentResult :=
  b.segment_results.filter fun r => !r.is_first_segment

/-- Source `BatchInferenceEngine._batch_transcribe`:  returns `none` when the
model service is not ready; filters the input paths down to those that
exist on disk (missing files are only logged); returns `none` when no
path survives; otherwise calls the adapter on the surviving paths.
`ready` stands for `model_service.is_ready()`, `fexists` for
`Path(path).exists()`, and `model` for the adapter call — `none` when
the call raises (the wrapping `try` turns any exception into `None`). -/
def batch_transcribe (ready : Bool) (fexists : String → Bool)
    (model : List String → Option (List TranscribeResult))
    (audio_paths : List String) : Option (List TranscribeResult) :=
  if ready = false then none
  else
    let valid_paths := audio_paths.filter fexists
    if valid_paths.isEmpty then none
    else model valid_paths

/-- The `SegmentResult` built for one successful item in
`BatchInferenceEngine._process_inference_results` (the `.get`
defaults: text `""` then `strip()`, confidence `0.95`). -/
def mk_segment_result (t : SegmentTask) (r : TranscribeResult)
    (avg : ℚ) : SegmentResult :=
  { segment_id := t.task_id
    parent_audio_id := t.parent_audio_id
    segment_index := t.segment_index
    text := (r.text.getD "").trim
    confidence := r.confidence.getD (95 / 100)
    processing_time := avg
    start_time := t.start_time
    end_time := t.end_time
    duration := t.duration
    is_first_segment := t.is_first_segment
    priority := t.priority
    file_path := t.file_path }

/-- Source `BatchInferenceEngine._process_inference_results`: zip the tasks
with the model results; an item with `success=true` yields a
`SegmentResult` with the averaged processing time; an item with
`success=false` is skipped (only a warning is logged — no FAILED
result is produced for it). -/
def process_inference_results (tasks : List SegmentTask)
    (results : List TranscribeResult) (total_time : ℚ) : List SegmentResult :=
  let avg := total_time / (tasks.length : ℚ)
  (tasks.zip results).filterMap fun p =>
    if p.2.success then some (mk_segment_result p.1 p.2 avg) else none

/-- Source `BatchInferenceEngine.process_batch`: run `_batch_transcribe` on
the batch's file paths; when it yields a non-empty list of the same
length as the batch, the batch COMPLETES with the per-item results;
otherwise (a `None` return — which also covers a raising model call —
an empty list, or a length mismatch) the whole batch is marked FAILED
with the fixed mismatch message and all segment ids recorded in
`failed_segments`.  `inference_time` stands for the measured GPU
time. -/
def process_batch (ready : Bool) (fexists : String → Bool)
    (model : List String → Option (List TranscribeResult))
    (tasks : List SegmentTask) (batch_id : String)
    (inference_time : ℚ) : BatchResult :=
  let base : BatchResult :=
    { batch_id := batch_id
      status := BatchStatus.processing
      batch_size := tasks.length
      first_segments_count := tasks.countP fun t => t.is_first_segment
      normal_segments_count := tasks.countP fun t => !t.is_first_segment
      gpu_inference_time := inference_time }
  match batch_transcribe ready fexists model (tasks.map fun t => t.file_path) with
  | some rs =>
    if rs.isEmpty = false ∧ rs.length = tasks.length then
      { base with
        status := BatchStatus.completed
        segment_results := process_inference_results tasks rs inference_time }
    else
      { base with
        status := BatchStatus.failed
        error_message := some "批量推理返回结果不匹配"
        failed_segments := tasks.map fun t => t.task_id }
  | none =>
      { base with
        status := BatchStatus.failed
        error_message := some "批量推理返回结果不匹配"
        failed_segments := tasks.map fun t => t.task_id }

/-- Lookup in an insertion-ordered association list (Python `dict`
read `m.get(k)` / `m[k]`). -/
def getAssoc {α : Type} (k : String) : List (String × α) → Option α
  | [] => none
  | (k1, v1) :: rest => if k1 = k then some v1 else getAssoc k rest

/-- Write-through update of an insertion-ordered association list
(Python `m[k] = v`: replace in place if the key exists, else append). -/
def setAssoc {α : Type} (k : String) (v : α) :
    List (String × α) → List (String × α)
  | [] => [(k, v)]
  | (k1, v1) :: rest =>
    if k1 = k then (k1, v) :: rest else (k1, v1) :: setAssoc k v rest

/-- Modelled from the spec: the `AudioTask` dataclass used by
`app/preprocessing/task_manager.py` (with a `TaskStatus` status, a
`segments` id list and a merged `final_text`) is not under `src/`; the
divergent `app/models/audio_task.py` has the analogous fields.  Only
the fields the task manager reads are modelled. -/
structure AudioTask where
  task_id : String
  status : TaskStatus
  segments : List String := []
  final_text : Option String := none
deriving DecidableEq, Repr

/-- The two maps of `app/preprocessing/task_manager.py`
(`TaskManager.audio_tasks`, `TaskManager.segment_tasks`). -/
structure TaskManagerState where
  audio_tasks : List (String × AudioTask) := []
  segment_tasks : List (String × SegmentTask) := []
deriving DecidableEq, Repr

/-- Source `TaskManager._check_audio_task_completion`: collect the audio's
segments that are present in the segment map; if the number of
COMPLETED ones equals the number collected, merge the texts in index
order and mark the audio COMPLETED; otherwise do nothing.  A FAILED
segment therefore blocks the roll-up, and the audio is never set to
FAILED here. -/
def check_audio_task_completion (st : TaskManagerState)
    (audio_id : String) : TaskManagerState :=
  match getAssoc audio_id st.audio_tasks with
  | none => st
  | some audio =>
    let segs := audio.segments.filterMap fun sid => getAssoc sid st.segment_tasks
    let completed := segs.countP fun s => s.status == SegmentStatus.completed
    if completed = segs.length then
      let sorted := segs.mergeSort fun a b => a.segment_index ≤ b.segment_index
      let full_text := String.intercalate " "
        (sorted.map fun s => s.transcription_text.getD "")
      let audio1 : AudioTask :=
        { audio with status := TaskStatus.completed, final_text := some full_text }
      { st with audio_tasks := setAssoc audio_id audio1 st.audio_tasks }
    else st

/-- Source `TaskManager.update_segment_result`: when the segment exists,
apply `set_result` (text, confidence, processing time, COMPLETED) and
— in the same call — run the parent-audio completion check. -/
def update_segment_result (st : TaskManagerState) (segment_id : String)
    (text : String) (conf proc_time : ℚ) : TaskManagerState :=
  match getAssoc segment_id st.segment_tasks with
  | none => st
  | some seg =>
    let st1 : TaskManagerState := { st with
      segment_tasks := setAssoc segment_id
        (seg.set_result text conf proc_time) st.segment_tasks }
    check_audio_task_completion st1 seg.parent_audio_id

/-- The dispatcher's two result maps
(`app/streaming/result_dispatcher.py` `ResultDispatcher`):
`completed_results` keyed by segment id, `first_segment_results` keyed
by parent audio id. -/
structure DispatcherState where
  completed_results : List (String × SegmentResult) := []
  first_segment_results : List (String × SegmentResult) := []
deriving DecidableEq, Repr

/-- One observable action of `dispatch_batch_results`, in execution
order: storing a result in the dispatcher maps, or invoking the
registered observers on it. -/
inductive DispatchEvent where
  | store (r : SegmentResult)
  | notify (r : SegmentResult)
deriving DecidableEq, Repr

/-- The result an event is about. -/
def DispatchEvent.result : DispatchEvent → SegmentResult
  | .store r => r
  | .notify r => r

/-- Source `ResultDispatcher._dispatch_first_segments`: per result, store it
in both maps, then call the first-segment observers. -/
def dispatch_first_segments (st : DispatcherState)
    (rs : List SegmentResult) : DispatcherState × List DispatchEvent :=
  rs.foldl (fun acc r =>
    ({ first_segment_results :=
        setAssoc r.parent_audio_id r acc.1.first_segment_results
       completed_results := setAssoc r.segment_id r acc.1.completed_results },
     acc.2 ++ [DispatchEvent.store r, DispatchEvent.notify r])) (st, [])

/-- Source `ResultDispatcher._dispatch_normal_segments`: per result, store it
in `completed_results`, then call the all-segment observers. -/
def dispatch_normal_segments (st : DispatcherState)
    (rs : List SegmentResult) : DispatcherState × List DispatchEvent :=
  rs.foldl (fun acc r =>
    ({ acc.1 with
        completed_results := setAssoc r.segment_id r acc.1.completed_results },
     acc.2 ++ [DispatchEvent.store r, DispatchEvent.notify r])) (st, [])

/-- Source `ResultDispatcher._update_task_manager_results`: push every result
of the batch into the task manager, in `segment_results` order. -/
def update_task_manager_results (tm : TaskManagerState)
    (rs : List SegmentResult) : TaskManagerState :=
  rs.foldl (fun acc r =>
    update_segment_result acc r.segment_id r.text r.confidence
      r.processing_time) tm

/-- Source `ResultDispatcher.dispatch_batch_results`: partition the batch's
results into first segments and normal segments, dispatch the first
segments and then the normal segments, and finally update the task
manager with all results.  The source launches the two dispatch
coroutines with `asyncio.gather` in this argument order; neither ever
suspends (the observers registered in this repository are synchronous
— none are registered at all), so the event loop runs the first one to
completion before the second, which the embedding renders
sequentially.  Returns the dispatcher state, the task-manager state
and the trace of store/notify events in execution order. -/
def dispatch_batch_results (st : DispatcherState) (tm : TaskManagerState)
    (br : BatchResult) :
    DispatcherState × TaskManagerState × List DispatchEvent :=
  let d1 := dispatch_first_segments st br.get_first_segments
  let d2 := dispatch_normal_segments d1.1 br.get_normal_segments
  let tm1 := update_task_manager_results tm br.segment_results
  (d2.1, tm1, d1.2 ++ d2.2)

/-- Source `ResultDispatcher.cleanup_old_results`: an entry is expired when it
carries a `created_at` attribute (the `hasattr` probe) older than
`max_age_seconds`; expired entries are removed from both maps.  The
Python function counts the removals only into a local variable and
returns `None`; the count is exposed here as the second component. -/
def cleanup_old_results (st : DispatcherState)
    (current_time max_age_seconds : ℚ) : DispatcherState × Nat :=
  let expired : SegmentResult → Bool := fun r =>
    match r.created_at with
    | some c => decide (max_age_seconds < current_time - c)
    | none => false
  ({ completed_results := st.completed_results.filter fun p => !expired p.2
     first_segment_results :=
       st.first_segment_results.filter fun p => !expired p.2 },
   st.completed_results.countP (fun p => expired p.2) +
     st.first_segment_results.countP (fun p => expired p.2))

/-- The store/notify event block one dispatch loop emits for a result
list: per result, a store followed by an observer notification. -/
def events_for : List SegmentResult → List DispatchEvent
  | [] => []
  | r :: rest => DispatchEvent.store r :: DispatchEvent.notify r :: events_for rest

/-- Segment fixture already marked PROCESSING (as the scheduler leaves
it when a batch is formed). -/
def seg_proc (id aid : String) (i : Nat) : SegmentTask :=
  { segment_ex id aid i with status := SegmentStatus.processing }

/-- Segment fixture already FAILED. -/
def seg_failed (id aid : String) (i : Nat) : SegmentTask :=
  { segment_ex id aid i with
    status := SegmentStatus.failed, error_message := some "boom" }

/-- Task-store fixture: one PROCESSING audio with one FAILED and one
PROCESSING segment. -/
def tm_mixed_ex : TaskManagerState :=
  { audio_tasks := [("a",
      { task_id := "a", status := TaskStatus.processing, segments := ["s0", "s1"] })]
    segment_tasks :=
      [("s0", seg_failed "s0" "a" 0), ("s1", seg_proc "s1" "a" 1)] }

/-- The segment-map update `update_segment_result` performs before the
parent-audio completion check. -/
def with_updated_segment (tm : TaskManagerState) (sid : String)
    (seg1 : SegmentTask) : TaskManagerState :=
  { tm with segment_tasks := setAssoc sid seg1 tm.segment_tasks }

/-- Task-store fixture: one PROCESSING audio with two PROCESSING
segments. -/
def tm_ex : TaskManagerState :=
  { audio_tasks := [("a",
      { task_id := "a", status := TaskStatus.processing, segments := ["s0", "s1"] })]
    segment_tasks :=
      [("s0", seg_proc "s0" "a" 0), ("s1", seg_proc "s1" "a" 1)] }

/-- Concrete dispatched-result fixture. -/
def result_ex (sid aid : String) (i : Nat) : SegmentResult :=
  { segment_id := sid
    parent_audio_id := aid
    segment_index := i
    text := "hello"
    confidence := 1
    processing_time := 2
    start_time := 0
    end_time := 1
    duration := 1
    is_first_segment := i == 0
    priority := if i = 0 then 10 else 1
    file_path := sid ++ ".wav" }

/-- Completed-batch fixture with one first-segment and one
normal-segment result. -/
def batch_result_ex : BatchResult :=
  { batch_id := "b0"
    status := BatchStatus.completed
    batch_size := 2
    first_segments_count := 1
    normal_segments_count := 1
    segment_results := [result_ex "s0" "a" 0, result_ex "s1" "a" 1] }

/-- The batch result produced when the model call raises: two
PROCESSING segments, the adapter returns `None`. -/
def br_fail_ex : BatchResult :=
  process_batch true (fun _ => true) (fun _ => none)
    [seg_proc "s0" "a" 0, seg_proc "s1" "a" 1] "b1" 1

/-- A successful adapter item. -/
def tres_ok : TranscribeResult :=
  { success := true, text := some "hi there", confidence := some 1,
    processing_time := some 1 }

/-- Dispatcher-store fixture holding one stored result (with no
`created_at` attribute, as the pipeline produces them). -/
def disp_ex : DispatcherState :=
  { completed_results := [("s0", result_ex "s0" "a" 0)]
    first_segment_results := [("a", result_ex "s0" "a" 0)] }

/-- The adapter item for a failed transcription. -/
def tres_fail : TranscribeResult :=
  { success := false, error := some "decode error" }

/-- The batch result when the model succeeds for `s0.wav` and returns
success=false for `s1.wav` (lengths match, so the batch COMPLETES). -/
def br_partial_ex : BatchResult :=
  process_batch true (fun _ => true)
    (fun ps => some (ps.map fun p => if p = "s1.wav" then tres_fail else tres_ok))
    [seg_proc "s0" "a" 0, seg_proc "s1" "a" 1] "b2" 2

/-- Closed form of `drain_loop`: it transfers `take` of the queue into
the batch, leaves `drop` in the queue and counts the transfer. -/
theorem drain_loop_eq (cap : Nat) (q : List SegmentTask) :
    ∀ batch, drain_loop cap batch q =
      (batch ++ q.take (cap - batch.length), q.drop (cap - batch.length),
        min (cap - batch.length) q.length) := by
  induction q with
  | nil =>
    intro batch
    simp [drain_loop]
  | cons t rest ih =>
    intro batch
    by_cases h : batch.length < cap
    · have hk : cap - batch.length = (cap - (batch.length + 1)) + 1 := by omega
      simp only [drain_loop, if_pos h, ih (batch ++ [t])]
      simp [List.length_append, hk, Nat.succ_min_succ, List.append_assoc]
    · have hk : cap - batch.length = 0 := by omega
      simp [drain_loop, if_neg h, hk]

/-- Arithmetic fact used to simplify the remaining batch capacity after
the first-segment queue has been drained. -/
theorem nat_sub_min (B L : Nat) : B - min B L = B - L := by omega

/-- C1: a single `_create_batch` call removes items from the
first-segment (high) queue in FIFO order until it is empty or the
batch holds `batch_size` items, only then fills the remainder from the
normal queue in FIFO order; the returned batch lists all high items
(marked PROCESSING with the batch id) before any normal items, the two
returned counts are the numbers taken from each queue, the queues lose
exactly those prefixes, and whenever the high queue is non-empty the
first segment of a non-trivial batch comes from the high queue. -/
theorem create_batch_priority_spec (st : SchedulerState) (now_ms : Nat) :
    (create_batch st now_ms).1 =
      (st.first_segment_queue.take st.settings.batch_size ++
        st.normal_segment_queue.take
          (st.settings.batch_size - st.first_segment_queue.length)).map
        (fun t => { t with status := SegmentStatus.processing,
                           batch_id := some (create_batch st now_ms).2.1 })
    ∧ (create_batch st now_ms).2.2.1
        = min st.settings.batch_size st.first_segment_queue.length
    ∧ (create_batch st now_ms).2.2.2.1
        = min (st.settings.batch_size - st.first_segment_queue.length)
            st.normal_segment_queue.length
    ∧ (create_batch st now_ms).2.2.2.2.first_segment_queue
        = st.first_segment_queue.drop st.settings.batch_size
    ∧ (create_batch st now_ms).2.2.2.2.normal_segment_queue
        = st.normal_segment_queue.drop
            (st.settings.batch_size - st.first_segment_queue.length)
    ∧ (0 < st.settings.batch_size → st.first_segment_queue ≠ [] →
        (create_batch st now_ms).1.head? =
          st.first_segment_queue.head?.map
            (fun t => { t with status := SegmentStatus.processing,
                               batch_id := some (create_batch st now_ms).2.1 })) := by
  have hq := drain_loop_eq st.settings.batch_size st.first_segment_queue []
  have hlen : (st.first_segment_queue.take st.settings.batch_size).length
      = min st.settings.batch_size st.first_segment_queue.length := by
    simp [List.length_take]
  refine ⟨?_, ?_, ?_, ?_, ?_, ?_⟩
  · simp [create_batch, drain_loop_eq, hlen, nat_sub_min]
  · simp [create_batch, drain_loop_eq]
  · simp [create_batch, drain_loop_eq, hlen, nat_sub_min]
  · simp [create_batch, drain_loop_eq]
  · simp [create_batch, drain_loop_eq, hlen, nat_sub_min]
  · intro hB hne
    match hqh : st.first_segment_queue, hBv : st.settings.batch_size with
    | [], _ => exact absurd hqh hne
    | x :: xs, 0 => omega
    | x :: xs, B + 1 =>
      simp [create_batch, drain_loop_eq, hqh, hBv, List.take_succ_cons]

/-- Evaluation of `create_batch_priority_spec` on `sched_ex`: the batch
is non-trivial, the high queue is non-empty, and the first batch item
is indeed the head of the high queue. -/
theorem create_batch_priority_spec_witness :
    0 < sched_ex.settings.batch_size ∧ sched_ex.first_segment_queue ≠ [] ∧
    (create_batch sched_ex 5).1.head? =
      sched_ex.first_segment_queue.head?.map
        (fun t => { t with status := SegmentStatus.processing,
                           batch_id := some (create_batch sched_ex 5).2.1 }) :=
  ⟨by decide, by decide,
    (create_batch_priority_spec sched_ex 5).2.2.2.2.2 (by decide) (by decide)⟩

/-- C6: `add_segment_task` rejects exactly when the combined queue size
has reached `max_queue_size` (including exactly at capacity); a
rejection leaves the scheduler state unchanged; on acceptance the
segment is appended to the first-segment queue exactly when its index
is 0 (else to the normal queue), with status QUEUED and `queued_at`
stamped. -/
theorem add_segment_task_spec (st : SchedulerState) (t : SegmentTask) (now : ℚ) :
    ((add_segment_task st t now).1 = false ↔
      st.settings.max_queue_size ≤ total_queue_size st)
    ∧ ((add_segment_task st t now).1 = false →
        (add_segment_task st t now).2 = st)
    ∧ ((add_segment_task st t now).1 = true → t.is_first_segment = true →
        (add_segment_task st t now).2 =
          { st with first_segment_queue := st.first_segment_queue ++
              [{ t with status := SegmentStatus.queued, queued_at := some now }] })
    ∧ ((add_segment_task st t now).1 = true → t.is_first_segment = false →
        (add_segment_task st t now).2 =
          { st with normal_segment_queue := st.normal_segment_queue ++
              [{ t with status := SegmentStatus.queued, queued_at := some now }] }) := by
  by_cases hfull : st.settings.max_queue_size ≤ total_queue_size st
  · simp [add_segment_task, hfull]
  · by_cases hfirst : t.is_first_segment
    · simp [add_segment_task, hfull, hfirst]
    · simp [add_segment_task, hfull, hfirst]

/-- Evaluation of `add_segment_task_spec`: at capacity the segment is
rejected and the state is untouched; below capacity a first segment is
appended to the first-segment queue with status QUEUED. -/
theorem add_segment_task_spec_witness :
    (add_segment_task sched_full_ex (segment_ex "x" "a" 4) 7).1 = false ∧
    (add_segment_task sched_full_ex (segment_ex "x" "a" 4) 7).2 = sched_full_ex ∧
    (add_segment_task sched_ex (segment_ex "f9" "b" 0) 7).2 =
      { sched_ex with first_segment_queue := sched_ex.first_segment_queue ++
          [{ segment_ex "f9" "b" 0 with
              status := SegmentStatus.queued, queued_at := some 7 }] } :=
  ⟨(add_segment_task_spec sched_full_ex (segment_ex "x" "a" 4) 7).1.mpr (by decide),
    (add_segment_task_spec sched_full_ex (segment_ex "x" "a" 4) 7).2.1 (by decide),
    (add_segment_task_spec sched_ex (segment_ex "f9" "b" 0) 7).2.2.1
      (by decide) (by decide)⟩

theorem add_segment_task_settings (st : SchedulerState) (t : SegmentTask)
    (now : ℚ) : (add_segment_task st t now).2.settings = st.settings := by
  by_cases hfull : st.settings.max_queue_size ≤ total_queue_size st
  · simp [add_segment_task, hfull]
  · by_cases hfirst : t.is_first_segment <;>
      simp [add_segment_task, hfull, hfirst]

theorem add_segment_task_bound (st : SchedulerState) (t : SegmentTask)
    (now : ℚ) (h : total_queue_size st ≤ st.settings.max_queue_size) :
    total_queue_size (add_segment_task st t now).2 ≤
      st.settings.max_queue_size := by
  by_cases hfull : st.settings.max_queue_size ≤ total_queue_size st
  · simpa [add_segment_task, hfull] using h
  · by_cases hfirst : t.is_first_segment <;>
      simp [add_segment_task, hfull, hfirst] <;>
      (simp only [total_queue_size, List.length_append, List.length_cons,
        List.length_nil, not_le] at hfull ⊢ ; omega)

theorem create_batch_settings (st : SchedulerState) (now_ms : Nat) :
    (create_batch st now_ms).2.2.2.2.settings = st.settings := by
  simp [create_batch]

theorem create_batch_shrinks (st : SchedulerState) (now_ms : Nat) :
    total_queue_size (create_batch st now_ms).2.2.2.2 ≤ total_queue_size st := by
  simp [create_batch, drain_loop_eq, total_queue_size, List.length_drop]
  omega

theorem run_ops_bound (ops : List QueueOp) :
    ∀ st : SchedulerState,
      total_queue_size st ≤ st.settings.max_queue_size →
      total_queue_size (run_ops st ops) ≤ st.settings.max_queue_size := by
  induction ops with
  | nil => intro st h; simpa [run_ops] using h
  | cons op rest ih =>
    intro st h
    cases op with
    | push t now =>
      have hb := add_segment_task_bound st t now h
      have hs := add_segment_task_settings st t now
      have := ih (add_segment_task st t now).2 (by rw [hs]; exact hb)
      simpa [run_ops, hs] using this
    | drain n =>
      have hb := le_trans (create_batch_shrinks st n) h
      have hs := create_batch_settings st n
      have := ih (create_batch st n).2.2.2.2 (by rw [hs]; exact hb)
      simpa [run_ops, hs] using this

/-- C8: starting from empty queues, after any sequence of completed
admissions and drains the combined size of the two queues is at most
`max_queue_size`: admission preserves the bound by rejecting at
capacity and drains only remove items. -/
theorem queue_size_invariant (s : StreamingSettings) (ops : List QueueOp) :
    total_queue_size (run_ops { settings := s } ops) ≤ s.max_queue_size := by
  simpa using run_ops_bound ops { settings := s } (by simp [total_queue_size])

theorem create_batch_erase (st : SchedulerState) (now_ms : Nat) :
    (create_batch (erase_priorities st) now_ms).1
        = (create_batch st now_ms).1.map SegmentTask.erase_priority
    ∧ (create_batch (erase_priorities st) now_ms).2.1
        = (create_batch st now_ms).2.1
    ∧ (create_batch (erase_priorities st) now_ms).2.2.1
        = (create_batch st now_ms).2.2.1
    ∧ (create_batch (erase_priorities st) now_ms).2.2.2.1
        = (create_batch st now_ms).2.2.2.1 := by
  have hcomp : ∀ bid : String,
      ((fun t : SegmentTask =>
          { t with status := SegmentStatus.processing, batch_id := some bid })
        ∘ SegmentTask.erase_priority)
      = (SegmentTask.erase_priority ∘ fun t : SegmentTask =>
          { t with status := SegmentStatus.processing, batch_id := some bid }) :=
    fun bid => funext fun u => rfl
  refine ⟨?_, ?_, ?_, ?_⟩ <;>
    simp [create_batch, drain_loop_eq, erase_priorities, List.map_take,
      List.map_drop, List.length_take, List.length_map, hcomp]

theorem add_segment_task_erase (st : SchedulerState) (t : SegmentTask)
    (now : ℚ) :
    add_segment_task (erase_priorities st) (t.erase_priority) now
      = ((add_segment_task st t now).1,
          erase_priorities (add_segment_task st t now).2) := by
  have ht : total_queue_size (erase_priorities st) = total_queue_size st := by
    simp [erase_priorities, total_queue_size]
  have hm : (erase_priorities st).settings.max_queue_size
      = st.settings.max_queue_size := rfl
  have hf : SegmentTask.is_first_segment (SegmentTask.erase_priority t)
      = t.is_first_segment := rfl
  by_cases hfull : st.settings.max_queue_size ≤ total_queue_size st
  · simp only [add_segment_task, ht, hm]
    simp [hfull]
  · by_cases hfirst : t.is_first_segment <;>
      (simp only [add_segment_task, ht, hm, hf] ;
        simp [hfull, hfirst, erase_priorities, SegmentTask.erase_priority])

/-- C10: queue placement and batch contents depend only on whether the
segment index is 0.  Changing the segment's priority field and the two
configured priority options changes neither the admission outcome, nor
(up to the changed priority values themselves) the queue contents, nor
the contents, id and counts of a subsequently drained batch: the
scheduler never reads the priority field or the priority options. -/
theorem scheduler_priority_noninterference (st : SchedulerState)
    (t : SegmentTask) (p fsp nsp : Int) (now : ℚ) (now_ms : Nat) :
    (add_segment_task { st with settings := { st.settings with
          first_segment_priority := fsp, normal_segment_priority := nsp } }
        { t with priority := p } now).1 = (add_segment_task st t now).1
    ∧ erase_priorities (add_segment_task { st with settings := { st.settings with
          first_segment_priority := fsp, normal_segment_priority := nsp } }
        { t with priority := p } now).2
      = erase_priorities (add_segment_task st t now).2
    ∧ (create_batch (add_segment_task { st with settings := { st.settings with
            first_segment_priority := fsp, normal_segment_priority := nsp } }
          { t with priority := p } now).2 now_ms).1.map SegmentTask.erase_priority
        = (create_batch (add_segment_task st t now).2 now_ms).1.map
            SegmentTask.erase_priority
    ∧ (create_batch (add_segment_task { st with settings := { st.settings with
            first_segment_priority := fsp, normal_segment_priority := nsp } }
          { t with priority := p } now).2 now_ms).2.1
        = (create_batch (add_segment_task st t now).2 now_ms).2.1
    ∧ (create_batch (add_segment_task { st with settings := { st.settings with
            first_segment_priority := fsp, normal_segment_priority := nsp } }
          { t with priority := p } now).2 now_ms).2.2.1
        = (create_batch (add_segment_task st t now).2 now_ms).2.2.1
    ∧ (create_batch (add_segment_task { st with settings := { st.settings with
            first_segment_priority := fsp, normal_segment_priority := nsp } }
          { t with priority := p } now).2 now_ms).2.2.2.1
        = (create_batch (add_segment_task st t now).2 now_ms).2.2.2.1 := by
  have h2 := add_segment_task_erase { st with settings := { st.settings with
      first_segment_priority := fsp, normal_segment_priority := nsp } }
    { t with priority := p } now
  have h1 := add_segment_task_erase st t now
  have hst : erase_priorities { st with settings := { st.settings with
      first_segment_priority := fsp, normal_segment_priority := nsp } }
      = erase_priorities st := rfl
  have hts : SegmentTask.erase_priority { t with priority := p }
      = SegmentTask.erase_priority t := rfl
  rw [hst, hts, h1] at h2
  injection h2 with hf hs
  have hstate := hs.symm
  have hc2 := create_batch_erase (add_segment_task { st with settings :=
      { st.settings with first_segment_priority := fsp, normal_segment_priority := nsp } }
    { t with priority := p } now).2 now_ms
  have hc1 := create_batch_erase (add_segment_task st t now).2 now_ms
  rw [hstate] at hc2
  exact ⟨hf.symm, hstate,
    hc2.1.symm.trans hc1.1,
    hc2.2.1.symm.trans hc1.2.1,
    hc2.2.2.1.symm.trans hc1.2.2.1,
    hc2.2.2.2.symm.trans hc1.2.2.2⟩

theorem foldl_events {σ : Type} (G : σ → SegmentResult → σ)
    (rs : List SegmentResult) :
    ∀ (s : σ) (tr : List DispatchEvent),
      (rs.foldl (fun acc r => (G acc.1 r,
          acc.2 ++ [DispatchEvent.store r, DispatchEvent.notify r])) (s, tr)).2
        = tr ++ events_for rs := by
  induction rs with
  | nil => intro s tr; simp [events_for]
  | cons r rest ih =>
    intro s tr
    simp only [List.foldl_cons, ih, events_for]
    simp

theorem dispatch_first_segments_trace (st : DispatcherState)
    (rs : List SegmentResult) :
    (dispatch_first_segments st rs).2 = events_for rs := by
  simpa [dispatch_first_segments] using
    foldl_events (fun s r =>
      ({ first_segment_results := setAssoc r.parent_audio_id r s.first_segment_results
         completed_results := setAssoc r.segment_id r s.completed_results } :
        DispatcherState)) rs st []

theorem dispatch_normal_segments_trace (st : DispatcherState)
    (rs : List SegmentResult) :
    (dispatch_normal_segments st rs).2 = events_for rs := by
  simpa [dispatch_normal_segments] using
    foldl_events (fun s r =>
      ({ s with completed_results := setAssoc r.segment_id r s.completed_results } :
        DispatcherState)) rs st []

theorem events_for_mem (rs : List SegmentResult) :
    ∀ e ∈ events_for rs, DispatchEvent.result e ∈ rs := by
  induction rs with
  | nil => intro e he; simp [events_for] at he
  | cons r rest ih =>
    intro e he
    simp only [events_for, List.mem_cons] at he
    rcases he with h | h | h
    · subst h; simp [DispatchEvent.result]
    · subst h; simp [DispatchEvent.result]
    · exact List.mem_cons_of_mem r (ih e h)

theorem append_first_block (A B : List DispatchEvent) (d : DispatchEvent)
    (hA : ∀ e ∈ A, (DispatchEvent.result e).is_first_segment = true)
    (hB : ∀ e ∈ B, (DispatchEvent.result e).is_first_segment = false)
    (i j : Nat) (hj : j < (A ++ B).length) (hij : i ≤ j)
    (hfirst : (((A ++ B).getD j d).result.is_first_segment = true)) :
    ((A ++ B).getD i d).result.is_first_segment = true := by
  by_cases hjA : j < A.length
  · have hiA : i < A.length := lt_of_le_of_lt hij hjA
    rw [List.getD_append _ _ _ _ hiA, List.getD_eq_getElem _ _ hiA]
    exact hA _ (List.getElem_mem hiA)
  · exfalso
    have hge : A.length ≤ j := le_of_not_lt hjA
    have hjB : j - A.length < B.length := by
      rw [List.length_append] at hj
      omega
    rw [List.getD_append_right _ _ _ _ hge,
      List.getD_eq_getElem _ _ hjB] at hfirst
    have hfalse := hB _ (List.getElem_mem hjB)
    rw [hfalse] at hfirst
    exact Bool.false_ne_true hfirst

/-- C5: within one `dispatch_batch_results` call, every first-segment
result is stored and has its observers invoked before any
normal-segment result of the batch is stored or notified: in the event
trace, any event at or before a first-segment event is itself about a
first-segment result (equivalently, no normal-segment event precedes a
first-segment event).  `d` is an arbitrary default for the in-bounds
lookups. -/
theorem dispatch_firsts_before_normals (st : DispatcherState)
    (tm : TaskManagerState) (br : BatchResult) (d : DispatchEvent) (i j : Nat)
    (hj : j < (dispatch_batch_results st tm br).2.2.length)
    (hij : i ≤ j)
    (hfirst : (((dispatch_batch_results st tm br).2.2).getD j d).result.is_first_segment
      = true) :
    (((dispatch_batch_results st tm br).2.2).getD i d).result.is_first_segment
      = true := by
  have hτ : (dispatch_batch_results st tm br).2.2
      = events_for br.get_first_segments
        ++ events_for br.get_normal_segments := by
    simp [dispatch_batch_results, dispatch_first_segments_trace,
      dispatch_normal_segments_trace]
  have hA : ∀ e ∈ events_for br.get_first_segments,
      (DispatchEvent.result e).is_first_segment = true := by
    intro e he
    have hmem : DispatchEvent.result e ∈ br.segment_results.filter
        (fun r => r.is_first_segment) := events_for_mem _ e he
    exact (List.mem_filter.mp hmem).2
  have hB : ∀ e ∈ events_for br.get_normal_segments,
      (DispatchEvent.result e).is_first_segment = false := by
    intro e he
    have hmem : DispatchEvent.result e ∈ br.segment_results.filter
        (fun r => !r.is_first_segment) := events_for_mem _ e he
    have h2 := (List.mem_filter.mp hmem).2
    simpa using h2
  rw [hτ] at hfirst hj ⊢
  exact append_first_block _ _ d hA hB i j hj hij hfirst

theorem getAssoc_setAssoc_self {α : Type} (k : String) (v : α)
    (m : List (String × α)) : getAssoc k (setAssoc k v m) = some v := by
  induction m with
  | nil => simp [getAssoc, setAssoc]
  | cons p rest ih =>
    by_cases h : p.1 = k
    · simp [getAssoc, setAssoc, h]
    · simp [getAssoc, setAssoc, h, ih]

theorem getAssoc_setAssoc_ne {α : Type} (k k2 : String) (v : α)
    (m : List (String × α)) (h : k ≠ k2) :
    getAssoc k (setAssoc k2 v m) = getAssoc k m := by
  induction m with
  | nil =>
    have hne : ¬ k2 = k := fun h2 => h h2.symm
    simp [getAssoc, setAssoc, hne]
  | cons p rest ih =>
    have hne : ¬ k2 = k := fun h2 => h h2.symm
    by_cases h2 : p.1 = k2
    · have h3 : ¬ p.1 = k := by
        intro h4
        rw [h2] at h4
        exact hne h4
      simp [getAssoc, setAssoc, h2, h3, hne]
    · by_cases h4 : p.1 = k <;>
        simp [getAssoc, setAssoc, h2, h4, ih, h, hne]

theorem check_audio_segment_tasks (st : TaskManagerState) (aid : String) :
    (check_audio_task_completion st aid).segment_tasks = st.segment_tasks := by
  unfold check_audio_task_completion
  cases getAssoc aid st.audio_tasks with
  | none => rfl
  | some audio =>
    dsimp only
    split
    · rfl
    · rfl

theorem update_segment_result_other (tm : TaskManagerState)
    (sid k : String) (text : String) (conf pt : ℚ) (hne : k ≠ sid) :
    getAssoc k (update_segment_result tm sid text conf pt).segment_tasks
      = getAssoc k tm.segment_tasks := by
  unfold update_segment_result
  cases hseg : getAssoc sid tm.segment_tasks with
  | none => rfl
  | some seg =>
    rw [check_audio_segment_tasks]
    exact getAssoc_setAssoc_ne k sid _ _ hne

theorem update_segment_result_self (tm : TaskManagerState)
    (sid : String) (text : String) (conf pt : ℚ) (seg : SegmentTask)
    (hseg : getAssoc sid tm.segment_tasks = some seg) :
    getAssoc sid (update_segment_result tm sid text conf pt).segment_tasks
      = some (seg.set_result text conf pt) := by
  unfold update_segment_result
  rw [hseg]
  rw [check_audio_segment_tasks]
  exact getAssoc_setAssoc_self sid _ _

/-- C7 counterexample: after `update_segment_result` completes the last
non-terminal sibling, every sibling is terminal (one FAILED, one
COMPLETED) and not all are FAILED, so the claim requires the parent
audio to become COMPLETED — but the code, which compares the COMPLETED
count against the total, leaves the audio PROCESSING. -/
theorem terminal_mixed_audio_stays_processing :
    ((getAssoc "s0" (update_segment_result tm_mixed_ex "s1" "hello" (9/10) 1).segment_tasks).map
        fun s => s.status) = some SegmentStatus.failed
    ∧ ((getAssoc "s1" (update_segment_result tm_mixed_ex "s1" "hello" (9/10) 1).segment_tasks).map
        fun s => s.status) = some SegmentStatus.completed
    ∧ ((getAssoc "a" (update_segment_result tm_mixed_ex "s1" "hello" (9/10) 1).audio_tasks).map
        fun a => a.status) = some TaskStatus.processing := by
  decide

/-- C7 amended: `update_segment_result` records the result on the
segment (COMPLETED with text, confidence and processing time) and, in
the same call, rolls the parent audio up to COMPLETED exactly when
every sibling present in the store is COMPLETED.  A FAILED sibling
blocks the roll-up (the audio entry is left unchanged — it stays
PROCESSING forever even when all siblings are terminal), and this
operation never sets the audio to FAILED. -/
theorem audio_rollup_requires_all_completed (tm : TaskManagerState)
    (sid text : String) (conf pt : ℚ) :
    (getAssoc sid tm.segment_tasks = none →
      update_segment_result tm sid text conf pt = tm)
    ∧ ∀ seg, getAssoc sid tm.segment_tasks = some seg →
        getAssoc sid (update_segment_result tm sid text conf pt).segment_tasks
          = some (seg.set_result text conf pt)
        ∧ (getAssoc seg.parent_audio_id tm.audio_tasks = none →
            (update_segment_result tm sid text conf pt).audio_tasks
              = tm.audio_tasks)
        ∧ ∀ audio, getAssoc seg.parent_audio_id tm.audio_tasks = some audio →
            (((audio.segments.filterMap fun s =>
                getAssoc s (update_segment_result tm sid text conf pt).segment_tasks).all
                  fun s => s.status == SegmentStatus.completed) = true →
              (getAssoc seg.parent_audio_id
                  (update_segment_result tm sid text conf pt).audio_tasks).map
                  (fun a => a.status) = some TaskStatus.completed)
            ∧ (((audio.segments.filterMap fun s =>
                getAssoc s (update_segment_result tm sid text conf pt).segment_tasks).all
                  fun s => s.status == SegmentStatus.completed) = false →
              getAssoc seg.parent_audio_id
                  (update_segment_result tm sid text conf pt).audio_tasks
                = some audio) := by
  constructor
  · intro hnone
    simp [update_segment_result, hnone]
  · intro seg hseg
    have hmain : update_segment_result tm sid text conf pt
        = check_audio_task_completion
            (with_updated_segment tm sid (seg.set_result text conf pt))
            seg.parent_audio_id := by
      unfold update_segment_result with_updated_segment
      rw [hseg]
    have haud2 : ∀ x, getAssoc seg.parent_audio_id tm.audio_tasks = x →
        getAssoc seg.parent_audio_id
          (with_updated_segment tm sid (seg.set_result text conf pt)).audio_tasks
          = x := fun x hx => hx
    refine ⟨update_segment_result_self tm sid text conf pt seg hseg, ?_, ?_⟩
    · intro hpnone
      rw [hmain]
      unfold check_audio_task_completion
      rw [haud2 none hpnone]
      rfl
    · intro audio haud
      have hsegs : (audio.segments.filterMap fun s =>
          getAssoc s (update_segment_result tm sid text conf pt).segment_tasks)
          = audio.segments.filterMap fun s =>
            getAssoc s
              (with_updated_segment tm sid (seg.set_result text conf pt)).segment_tasks := by
        rw [hmain, check_audio_segment_tasks]
      constructor
      · intro hall
        rw [hsegs] at hall
        have hcond : ((audio.segments.filterMap fun s =>
            getAssoc s
              (with_updated_segment tm sid (seg.set_result text conf pt)).segment_tasks).countP
              fun s => s.status == SegmentStatus.completed)
            = (audio.segments.filterMap fun s =>
              getAssoc s
                (with_updated_segment tm sid (seg.set_result text conf pt)).segment_tasks).length := by
          rw [List.countP_eq_length]
          intro a ha
          exact List.all_eq_true.mp hall a ha
        rw [hmain]
        unfold check_audio_task_completion
        rw [haud2 (some audio) haud]
        dsimp only
        rw [if_pos hcond]
        dsimp only
        rw [getAssoc_setAssoc_self]
        rfl
      · intro hfalse
        rw [hsegs] at hfalse
        have hcond : ¬ ((audio.segments.filterMap fun s =>
            getAssoc s
              (with_updated_segment tm sid (seg.set_result text conf pt)).segment_tasks).countP
              fun s => s.status == SegmentStatus.completed)
            = (audio.segments.filterMap fun s =>
              getAssoc s
                (with_updated_segment tm sid (seg.set_result text conf pt)).segment_tasks).length := by
          rw [List.countP_eq_length]
          intro hforall
          have hta : (audio.segments.filterMap fun s =>
              getAssoc s
                (with_updated_segment tm sid (seg.set_result text conf pt)).segment_tasks).all
                (fun s => s.status == SegmentStatus.completed) = true :=
            List.all_eq_true.mpr fun a ha => hforall a ha
          rw [hta] at hfalse
          exact Bool.noConfusion hfalse
        rw [hmain]
        unfold check_audio_task_completion
        rw [haud2 (some audio) haud]
        dsimp only
        rw [if_neg hcond]
        exact haud2 (some audio) haud

/-- Evaluation of `audio_rollup_requires_all_completed` on `tm_mixed_ex`:
the updated segment is COMPLETED with the recorded fields, and because
the FAILED sibling makes the all-COMPLETED test false, the parent audio
entry is returned unchanged (still PROCESSING). -/
theorem audio_rollup_requires_all_completed_witness :
    getAssoc "s1" (update_segment_result tm_mixed_ex "s1" "hello" (9/10) 1).segment_tasks
      = some ((seg_proc "s1" "a" 1).set_result "hello" (9/10) 1)
    ∧ getAssoc "a" (update_segment_result tm_mixed_ex "s1" "hello" (9/10) 1).audio_tasks
      = some { task_id := "a", status := TaskStatus.processing, segments := ["s0", "s1"] } := by
  have h := (audio_rollup_requires_all_completed tm_mixed_ex "s1" "hello" (9/10) 1).2
    (seg_proc "s1" "a" 1) (by decide)
  refine ⟨h.1, ?_⟩
  exact (h.2.2 { task_id := "a", status := TaskStatus.processing, segments := ["s0", "s1"] }
    (by decide)).2 (by decide)

/-- Evaluation of `dispatch_firsts_before_normals` on
`batch_result_ex`: position 1 of the trace is the first-segment
notification, so position 0 is also about the first segment. -/
theorem dispatch_firsts_before_normals_witness :
    (((dispatch_batch_results { } tm_ex batch_result_ex).2.2).getD 0
        (DispatchEvent.store (result_ex "s1" "a" 1))).result.is_first_segment
      = true :=
  dispatch_firsts_before_normals { } tm_ex batch_result_ex
    (DispatchEvent.store (result_ex "s1" "a" 1)) 0 1
    (by decide) (by decide) (by decide)

/-- C2 counterexample: when the model call raises, the batch result is
recorded FAILED (with the engine's fixed mismatch message, not the
raised message), but after the whole dispatch the two segments are
still PROCESSING with no error recorded — they never transition to
FAILED, contrary to the claim. -/
theorem batch_failure_segments_not_failed :
    br_fail_ex.status = BatchStatus.failed
    ∧ br_fail_ex.error_message = some "批量推理返回结果不匹配"
    ∧ ((getAssoc "s0" (dispatch_batch_results { } tm_ex br_fail_ex).2.1.segment_tasks).map
        fun s => s.status) = some SegmentStatus.processing
    ∧ ((getAssoc "s1" (dispatch_batch_results { } tm_ex br_fail_ex).2.1.segment_tasks).map
        fun s => s.status) = some SegmentStatus.processing
    ∧ ((getAssoc "s0" (dispatch_batch_results { } tm_ex br_fail_ex).2.1.segment_tasks).map
        fun s => s.error_message) = some none := by
  decide

/-- C2 amended: if the model call raises (the adapter returns `None`)
or returns an empty or length-mismatched list, the whole batch is
recorded FAILED with the engine's fixed mismatch error message and all
segment ids listed in `failed_segments`; it carries no per-segment
results, so dispatching it is a no-op: the dispatcher maps, the task
store (in particular every segment's status) and the observers are
untouched.  The pipeline continues — `process_batch` returns normally
instead of propagating the error. -/
theorem batch_failure_recorded_spec (ready : Bool) (fexists : String → Bool)
    (model : List String → Option (List TranscribeResult))
    (tasks : List SegmentTask) (bid : String) (time : ℚ)
    (dst : DispatcherState) (tm : TaskManagerState)
    (hfail : ∀ rs, batch_transcribe ready fexists model
        (tasks.map fun t => t.file_path) = some rs →
      rs.isEmpty = true ∨ rs.length ≠ tasks.length) :
    (process_batch ready fexists model tasks bid time).status = BatchStatus.failed
    ∧ (process_batch ready fexists model tasks bid time).error_message
        = some "批量推理返回结果不匹配"
    ∧ (process_batch ready fexists model tasks bid time).failed_segments
        = tasks.map (fun t => t.task_id)
    ∧ (process_batch ready fexists model tasks bid time).segment_results = []
    ∧ dispatch_batch_results dst tm (process_batch ready fexists model tasks bid time)
        = (dst, tm, []) := by
  cases hbt : batch_transcribe ready fexists model (tasks.map fun t => t.file_path) with
  | none =>
    refine ⟨?_, ?_, ?_, ?_, ?_⟩ <;>
      simp [process_batch, hbt, dispatch_batch_results,
        BatchResult.get_first_segments, BatchResult.get_normal_segments,
        dispatch_first_segments, dispatch_normal_segments,
        update_task_manager_results]
  | some rs =>
    have hne : ¬ (¬ rs = [] ∧ rs.length = tasks.length) := by
      rcases hfail rs hbt with h | h
      · intro hc
        simp at h
        exact hc.1 h
      · intro hc
        exact h hc.2
    refine ⟨?_, ?_, ?_, ?_, ?_⟩ <;>
      simp [process_batch, hbt, hne, dispatch_batch_results,
        BatchResult.get_first_segments, BatchResult.get_normal_segments,
        dispatch_first_segments, dispatch_normal_segments,
        update_task_manager_results]

/-- Evaluation of `batch_failure_recorded_spec` at a raising model
call on a concrete two-segment batch. -/
theorem batch_failure_recorded_spec_witness :
    (process_batch true (fun _ => true) (fun _ => none)
        [seg_proc "s0" "a" 0, seg_proc "s1" "a" 1] "b1" 1).failed_segments
      = ["s0", "s1"]
    ∧ dispatch_batch_results { } tm_ex
        (process_batch true (fun _ => true) (fun _ => none)
          [seg_proc "s0" "a" 0, seg_proc "s1" "a" 1] "b1" 1)
        = ({ }, tm_ex, []) := by
  have h := batch_failure_recorded_spec true (fun _ => true) (fun _ => none)
    [seg_proc "s0" "a" 0, seg_proc "s1" "a" 1] "b1" 1 { } tm_ex
    (fun rs hrs => by
      rw [show batch_transcribe true (fun _ => true) (fun _ => none)
          ([seg_proc "s0" "a" 0, seg_proc "s1" "a" 1].map fun t => t.file_path) = none
        from rfl] at hrs
      exact Option.noConfusion hrs)
  exact ⟨h.2.2.1, h.2.2.2.2⟩

/-- C4 counterexample: with two input paths of which only the first
exists on disk, `_batch_transcribe` (with an echoing, length-preserving
model) returns a single-item list: the missing path is silently
dropped instead of appearing as a success=false entry, and the output
length differs from the input length 2 demanded by the claim. -/
theorem missing_file_shortens_output :
    batch_transcribe true (fun p => p == "s0.wav")
        (fun ps => some (ps.map fun _ => tres_ok)) ["s0.wav", "gone.wav"]
      = some [tres_ok]
    ∧ ((batch_transcribe true (fun p => p == "s0.wav")
        (fun ps => some (ps.map fun _ => tres_ok)) ["s0.wav", "gone.wav"]).map
          fun rs => rs.length) = some 1 := by
  decide

/-- C4 amended: `_batch_transcribe` hands the model exactly the input
paths that exist on disk, in input order, dropping missing ones
(rather than reporting them); it returns `None` when the model is not
ready, when no input path exists, or when the model call raises; when
the model is length-preserving the output length is the number of
existing paths, not the number of inputs. -/
theorem batch_transcribe_filters_existing (ready : Bool)
    (fexists : String → Bool)
    (model : List String → Option (List TranscribeResult))
    (paths : List String) :
    (ready = false → batch_transcribe ready fexists model paths = none)
    ∧ (paths.filter fexists = [] →
        batch_transcribe ready fexists model paths = none)
    ∧ (ready = true → paths.filter fexists ≠ [] →
        batch_transcribe ready fexists model paths
          = model (paths.filter fexists))
    ∧ ((∀ ps rs2, model ps = some rs2 → rs2.length = ps.length) →
        ∀ rs, batch_transcribe ready fexists model paths = some rs →
          rs.length = (paths.filter fexists).length) := by
  refine ⟨?_, ?_, ?_, ?_⟩
  · intro h
    simp [batch_transcribe, h]
  · intro h
    simp [batch_transcribe, h]
  · intro h1 h2
    simp [batch_transcribe, h1, List.isEmpty_iff, h2]
  · intro hm rs hrs
    cases hr : ready with
    | false =>
      rw [hr] at hrs
      simp [batch_transcribe] at hrs
    | true =>
      by_cases hempty : paths.filter fexists = []
      · rw [hr] at hrs
        simp [batch_transcribe, hempty] at hrs
      · have heq : batch_transcribe ready fexists model paths
            = model (paths.filter fexists) := by
          simp [batch_transcribe, hr, List.isEmpty_iff, hempty]
        rw [heq] at hrs
        exact hm _ rs hrs

/-- Evaluation of `batch_transcribe_filters_existing` on the
one-existing-of-two-paths input: the call equals the model applied to
the filtered path list, and the output length is 1 (the number of
existing paths). -/
theorem batch_transcribe_filters_existing_witness :
    batch_transcribe true (fun p => p == "s0.wav")
        (fun ps => some (ps.map fun _ => tres_ok)) ["s0.wav", "gone.wav"]
      = some ((["s0.wav", "gone.wav"].filter fun p => p == "s0.wav").map
          fun _ => tres_ok)
    ∧ ([tres_ok] : List TranscribeResult).length
        = (["s0.wav", "gone.wav"].filter fun p => p == "s0.wav").length := by
  have h := batch_transcribe_filters_existing true (fun p => p == "s0.wav")
    (fun ps => some (ps.map fun _ => tres_ok)) ["s0.wav", "gone.wav"]
  refine ⟨h.2.2.1 rfl (by decide), ?_⟩
  exact h.2.2.2 (fun ps rs2 hr => by cases hr; simp) [tres_ok] (by decide)

/-- C9 counterexample: a stored result completed arbitrarily long ago
(threshold 1 s, cleanup run much later) is NOT evicted — the stored
`SegmentResult` carries no timestamp attribute, so the `hasattr` probe
always fails, the maps are returned unchanged and the internal count
stays 0 (the Python function returns `None`, not a count). -/
theorem old_results_never_evicted :
    cleanup_old_results disp_ex 1000000 1 = (disp_ex, 0)
    ∧ (result_ex "s0" "a" 0).created_at = none := by
  decide

/-- C9 amended: `cleanup_old_results` removes exactly the entries
whose dynamically attached `created_at` exists and is older than the
age threshold; an entry without `created_at` is never evicted.  Since
the engine's `SegmentResult` constructor never sets `created_at`,
stores filled by the pipeline are left entirely unchanged with an
eviction count of 0 (and the Python function returns no count to the
caller either way). -/
theorem cleanup_evicts_only_created_at (st : DispatcherState) (now age : ℚ) :
    (∀ p, p ∈ (cleanup_old_results st now age).1.completed_results ↔
        p ∈ st.completed_results ∧ ∀ c, p.2.created_at = some c → now - c ≤ age)
    ∧ (∀ p, p ∈ (cleanup_old_results st now age).1.first_segment_results ↔
        p ∈ st.first_segment_results ∧ ∀ c, p.2.created_at = some c → now - c ≤ age)
    ∧ ((∀ p ∈ st.completed_results, p.2.created_at = none) →
        (∀ p ∈ st.first_segment_results, p.2.created_at = none) →
        cleanup_old_results st now age = (st, 0))
    ∧ (∀ t r avg, (mk_segment_result t r avg).created_at = none) := by
  have hexp : ∀ r : SegmentResult,
      ((match r.created_at with
        | some c => decide (age < now - c)
        | none => false) = false)
      ↔ (∀ c, r.created_at = some c → now - c ≤ age) := by
    intro r
    cases hr : r.created_at with
    | none => simp [hr]
    | some c => simp [hr]
  refine ⟨?_, ?_, ?_, ?_⟩
  · intro p
    simp only [cleanup_old_results, List.mem_filter, Bool.not_eq_eq_eq_not,
      Bool.not_true]
    exact and_congr_right fun _ => hexp p.2
  · intro p
    simp only [cleanup_old_results, List.mem_filter, Bool.not_eq_eq_eq_not,
      Bool.not_true]
    exact and_congr_right fun _ => hexp p.2
  · intro h1 h2
    have hf1 : st.completed_results.filter (fun p =>
        !(match p.2.created_at with
          | some c => decide (age < now - c)
          | none => false)) = st.completed_results :=
      List.filter_eq_self.mpr fun p hp => by simp [h1 p hp]
    have hf2 : st.first_segment_results.filter (fun p =>
        !(match p.2.created_at with
          | some c => decide (age < now - c)
          | none => false)) = st.first_segment_results :=
      List.filter_eq_self.mpr fun p hp => by simp [h2 p hp]
    have hc1 : st.completed_results.countP (fun p =>
        (match p.2.created_at with
          | some c => decide (age < now - c)
          | none => false)) = 0 :=
      List.countP_eq_zero.mpr fun p hp => by simp [h1 p hp]
    have hc2 : st.first_segment_results.countP (fun p =>
        (match p.2.created_at with
          | some c => decide (age < now - c)
          | none => false)) = 0 :=
      List.countP_eq_zero.mpr fun p hp => by simp [h2 p hp]
    simp [cleanup_old_results, hf1, hf2, hc1, hc2]
  · intro t r avg
    rfl

/-- Evaluation of `cleanup_evicts_only_created_at` on `disp_ex`: every
stored entry lacks `created_at`, so an eviction pass far in the future
changes nothing and counts nothing; results built by the engine indeed
carry no `created_at`. -/
theorem cleanup_evicts_only_created_at_witness :
    cleanup_old_results disp_ex 1000000 1 = (disp_ex, 0)
    ∧ (mk_segment_result (segment_ex "s0" "a" 0) tres_ok 1).created_at = none := by
  have h := cleanup_evicts_only_created_at disp_ex 1000000 1
  exact ⟨h.2.2.1 (by decide) (by decide),
    h.2.2.2 (segment_ex "s0" "a" 0) tres_ok 1⟩

/-- C3 counterexample: the adapter fails item `s1` of a two-item batch;
the batch completes and its sibling `s0` is stored and COMPLETED, but
`s1` produces no result at all and — after the full dispatch — is still
PROCESSING with no error recorded, instead of transitioning to FAILED
as the claim requires. -/
theorem failed_item_segment_stays_processing :
    br_partial_ex.status = BatchStatus.completed
    ∧ (br_partial_ex.segment_results.map fun r => r.segment_id) = ["s0"]
    ∧ ((getAssoc "s0" (dispatch_batch_results { } tm_ex br_partial_ex).2.1.segment_tasks).map
        fun s => s.status) = some SegmentStatus.completed
    ∧ ((getAssoc "s1" (dispatch_batch_results { } tm_ex br_partial_ex).2.1.segment_tasks).map
        fun s => s.status) = some SegmentStatus.processing
    ∧ ((getAssoc "s1" (dispatch_batch_results { } tm_ex br_partial_ex).2.1.segment_tasks).map
        fun s => s.error_message) = some none := by
  decide

theorem filterMap_success_ids
    (l : List (SegmentTask × TranscribeResult)) (avg : ℚ) :
    ((l.filterMap fun p =>
        if p.2.success then some (mk_segment_result p.1 p.2 avg) else none).map
      fun r => r.segment_id)
      = (l.filter fun p => p.2.success).map fun p => p.1.task_id := by
  have hid : ∀ (t : SegmentTask) (r : TranscribeResult),
      (mk_segment_result t r avg).segment_id = t.task_id := fun t r => rfl
  induction l with
  | nil => simp
  | cons p rest ih =>
    by_cases h : p.2.success <;>
      simp [List.filterMap_cons, List.filter_cons, h, hid, ih]

theorem process_results_ids (tasks : List SegmentTask)
    (rs : List TranscribeResult) (time : ℚ) :
    ((process_inference_results tasks rs time).map fun r => r.segment_id)
      = ((tasks.zip rs).filter fun p => p.2.success).map fun p => p.1.task_id :=
  filterMap_success_ids (tasks.zip rs) (time / (tasks.length : ℚ))

theorem mem_process_results (tasks : List SegmentTask)
    (rs : List TranscribeResult) (time : ℚ) :
    ∀ p ∈ tasks.zip rs, p.2.success = true →
      mk_segment_result p.1 p.2 (time / (tasks.length : ℚ))
        ∈ process_inference_results tasks rs time := by
  intro p hp hs
  exact List.mem_filterMap.mpr ⟨p, hp, by simp [hs]⟩

theorem update_results_not_mem (out : List SegmentResult) :
    ∀ (tm : TaskManagerState) (k : String),
      k ∉ out.map (fun r => r.segment_id) →
      getAssoc k (update_task_manager_results tm out).segment_tasks
        = getAssoc k tm.segment_tasks := by
  induction out with
  | nil => intro tm k _; rfl
  | cons r rest ih =>
    intro tm k hk
    simp only [List.map_cons, List.mem_cons, not_or] at hk
    have hstep : update_task_manager_results tm (r :: rest)
        = update_task_manager_results
            (update_segment_result tm r.segment_id r.text r.confidence
              r.processing_time) rest := rfl
    rw [hstep, ih _ k (by simpa using hk.2)]
    exact update_segment_result_other tm r.segment_id k r.text r.confidence
      r.processing_time hk.1

theorem update_results_mem (out : List SegmentResult) :
    ∀ (tm : TaskManagerState),
      (out.map fun r => r.segment_id).Nodup →
      ∀ r ∈ out, ∀ seg, getAssoc r.segment_id tm.segment_tasks = some seg →
        getAssoc r.segment_id (update_task_manager_results tm out).segment_tasks
          = some (seg.set_result r.text r.confidence r.processing_time) := by
  induction out with
  | nil =>
    intro tm _ r hr
    cases hr
  | cons r0 rest ih =>
    intro tm hnd r hr seg hseg
    have hnd1 : (r0.segment_id :: rest.map fun r => r.segment_id).Nodup := by
      simpa only [List.map_cons] using hnd
    have hnd2 := List.nodup_cons.mp hnd1
    have hstep : update_task_manager_results tm (r0 :: rest)
        = update_task_manager_results
            (update_segment_result tm r0.segment_id r0.text r0.confidence
              r0.processing_time) rest := rfl
    rcases List.mem_cons.mp hr with heq | hmem
    · subst heq
      rw [hstep, update_results_not_mem rest _ r.segment_id hnd2.1]
      exact update_segment_result_self tm _ _ _ _ seg hseg
    · have hne : r.segment_id ≠ r0.segment_id := by
        intro heq
        exact hnd2.1 (heq ▸ List.mem_map_of_mem _ hmem)
      rw [hstep]
      apply ih _ hnd2.2 r hmem seg
      rw [update_segment_result_other tm r0.segment_id r.segment_id _ _ _ hne]
      exact hseg

theorem fail_id_not_mem :
    ∀ (tasks : List SegmentTask) (rs : List TranscribeResult) (i : Nat)
      (dt : SegmentTask) (dr : TranscribeResult),
      i < tasks.length → rs.length = tasks.length →
      (tasks.map fun t => t.task_id).Nodup →
      (rs.getD i dr).success = false →
      (tasks.getD i dt).task_id
        ∉ ((tasks.zip rs).filter fun p => p.2.success).map fun p => p.1.task_id := by
  intro tasks
  induction tasks with
  | nil =>
    intro rs i dt dr hi
    simp at hi
  | cons t ts ih =>
    intro rs i dt dr hi hlen hnodup hfail
    cases rs with
    | nil => simp at hlen
    | cons r rs2 =>
      have hlen2 : rs2.length = ts.length := by simpa using hlen
      have hnd1 : (t.task_id :: ts.map fun t => t.task_id).Nodup := by
        simpa only [List.map_cons] using hnodup
      have hnd := List.nodup_cons.mp hnd1
      cases i with
      | zero =>
        rw [List.getD_cons_zero] at hfail
        rw [List.getD_cons_zero]
        simp only [List.zip_cons_cons, List.filter_cons, hfail]
        intro hmem
        obtain ⟨p, hp, hpid⟩ := List.mem_map.mp hmem
        have hp2 : p ∈ ts.zip rs2 := List.mem_of_mem_filter hp
        have hp3 : p.1 ∈ ts := (List.of_mem_zip hp2).1
        exact hnd.1 (hpid ▸ List.mem_map_of_mem _ hp3)
      | succ i2 =>
        have hi2 : i2 < ts.length := by simpa using hi
        rw [List.getD_cons_succ] at hfail
        rw [List.getD_cons_succ]
        have hrec := ih rs2 i2 dt dr hi2 hlen2 hnd.2 hfail
        have hmem_ts : ts.getD i2 dt ∈ ts := by
          rw [List.getD_eq_getElem _ _ hi2]
          exact List.getElem_mem hi2
        have hne : (ts.getD i2 dt).task_id ≠ t.task_id := by
          intro heq
          exact hnd.1 (heq ▸ List.mem_map_of_mem _ hmem_ts)
        by_cases hs : r.success = true
        · simp only [List.zip_cons_cons, List.filter_cons, hs]
          simp only [if_true, List.map_cons, List.mem_cons, not_or]
          exact ⟨hne, hrec⟩
        · simp only [List.zip_cons_cons, List.filter_cons]
          rw [if_neg (by simpa using hs)]
          exact hrec

/-- C3 amended: when the adapter returns success=false for item `i` of
a completed batch (with pairwise-distinct segment ids), the result
list covers exactly the success=true items in order; item `i` yields
no result at all, so the task-store update leaves its segment entry
untouched (no FAILED transition — it keeps its previous status); every
success=true sibling that exists in the store is set COMPLETED with
its stripped text, its confidence (default 0.95) and the averaged
processing time. -/
theorem failed_item_skipped_siblings_completed
    (tasks : List SegmentTask) (rs : List TranscribeResult) (time : ℚ)
    (tm : TaskManagerState) (dt : SegmentTask) (dr : TranscribeResult)
    (i : Nat) (hi : i < tasks.length) (hlen : rs.length = tasks.length)
    (hnodup : (tasks.map fun t => t.task_id).Nodup)
    (hfail : (rs.getD i dr).success = false) :
    ((process_inference_results tasks rs time).map fun r => r.segment_id)
      = ((tasks.zip rs).filter fun p => p.2.success).map (fun p => p.1.task_id)
    ∧ (tasks.getD i dt).task_id
        ∉ ((process_inference_results tasks rs time).map fun r => r.segment_id)
    ∧ getAssoc (tasks.getD i dt).task_id
        (update_task_manager_results tm
          (process_inference_results tasks rs time)).segment_tasks
      = getAssoc (tasks.getD i dt).task_id tm.segment_tasks
    ∧ ∀ p ∈ tasks.zip rs, p.2.success = true →
        ∀ seg, getAssoc p.1.task_id tm.segment_tasks = some seg →
          getAssoc p.1.task_id
            (update_task_manager_results tm
              (process_inference_results tasks rs time)).segment_tasks
          = some (seg.set_result ((p.2.text.getD "").trim)
              (p.2.confidence.getD (95 / 100)) (time / (tasks.length : ℚ))) := by
  have hids := process_results_ids tasks rs time
  have hnotmem : (tasks.getD i dt).task_id
      ∉ ((tasks.zip rs).filter fun p => p.2.success).map (fun p => p.1.task_id) :=
    fail_id_not_mem tasks rs i dt dr hi hlen hnodup hfail
  have hnot2 : (tasks.getD i dt).task_id
      ∉ ((process_inference_results tasks rs time).map fun r => r.segment_id) := by
    rw [hids]
    exact hnotmem
  have hnod_out : ((process_inference_results tasks rs time).map
      fun r => r.segment_id).Nodup := by
    rw [hids]
    have hsub : (((tasks.zip rs).filter fun p => p.2.success).map
        fun p => p.1.task_id).Sublist
          ((tasks.zip rs).map fun p => p.1.task_id) :=
      (List.filter_sublist _).map _
    have h2 : (fun p : SegmentTask × TranscribeResult => p.1.task_id)
        = (fun t : SegmentTask => t.task_id) ∘ Prod.fst := rfl
    have hz : ((tasks.zip rs).map fun p => p.1.task_id)
        = tasks.map fun t => t.task_id := by
      rw [h2, ← List.map_map, List.map_fst_zip tasks rs (le_of_eq hlen.symm)]
    exact List.Nodup.sublist hsub (by rw [hz]; exact hnodup)
  refine ⟨hids, hnot2, update_results_not_mem _ tm _ hnot2, ?_⟩
  intro p hp hs seg hseg
  exact update_results_mem (process_inference_results tasks rs time) tm hnod_out
    (mk_segment_result p.1 p.2 (time / (tasks.length : ℚ)))
    (mem_process_results tasks rs time p hp hs) seg hseg

/-- Evaluation of `failed_item_skipped_siblings_completed` on a
two-item batch whose second item fails: segment `s1` gets no result
and its store entry is untouched, while sibling `s0` is recorded
COMPLETED with the adapter's fields. -/
theorem failed_item_skipped_siblings_completed_witness :
    ("s1" : String)
      ∉ ((process_inference_results [seg_proc "s0" "a" 0, seg_proc "s1" "a" 1]
          [tres_ok, tres_fail] 2).map fun r => r.segment_id)
    ∧ getAssoc "s0" (update_task_manager_results tm_ex
          (process_inference_results [seg_proc "s0" "a" 0, seg_proc "s1" "a" 1]
            [tres_ok, tres_fail] 2)).segment_tasks
      = some ((seg_proc "s0" "a" 0).set_result ((tres_ok.text.getD "").trim)
          (tres_ok.confidence.getD (95 / 100))
          (2 / (([seg_proc "s0" "a" 0, seg_proc "s1" "a" 1].length : Nat) : ℚ))) := by
  have h := failed_item_skipped_siblings_completed
    [seg_proc "s0" "a" 0, seg_proc "s1" "a" 1] [tres_ok, tres_fail] 2 tm_ex
    (seg_proc "s0" "a" 0) tres_ok 1 (by decide) (by decide) (by decide) (by decide)
  refine ⟨h.2.1, ?_⟩
  exact h.2.2.2 (seg_proc "s0" "a" 0, tres_ok) (by decide) (by decide)
    (seg_proc "s0" "a" 0) (by decide)

end SenseVoice
